import Mathlib

/-!
Shallow embedding of the couchtap TAP client core (`lib/client.js`) and
verification of its specification claims.

Byte buffers are modelled as `List Nat` (each entry a byte value); JS strings
exchanged with the wire are kept at the byte level, since every string the
client builds or compares is produced from a byte buffer.  Side effects
(event emission, transport sends, transport close) are modelled as an ordered
list of `Action` values returned alongside the updated client state.
-/

namespace Couchtap

/-- Wire bytes are natural numbers (values 0..255 in every packet). -/
abbrev Byte := Nat

/-- Packet header record, mirroring the 24-byte binary header fields used by
`lib/client.js` (`magic`, `opcode`, `keyLength`, `extrasLength`, `dataType`,
`status`, `dataLength` alias totalBodyLength, the correlation token, `cas`). -/
structure Header where
  magic : Nat := 0
  opcode : Nat := 0
  keyLength : Nat := 0
  extrasLength : Nat := 0
  dataType : Nat := 0
  status : Nat := 0
  dataLength : Nat := 0
  opaqueField : Nat := 0
  cas : Nat := 0
deriving Repr, DecidableEq

/-- Modelled from the spec: `factory.createHeader` (in `lib/factory.js`, which
is not among the provided sources) returns a fresh header with every field
zero, per the Wire Format contract of spec section 4.1. -/
def createHeader : Header := {}

/-- Modelled from the spec: `factory.createUInt32BE` (in `lib/factory.js`, not
among the provided sources) encodes an unsigned 32-bit integer as four
big-endian bytes, per spec section 4.1. -/
def createUInt32BE (n : Nat) : List Byte :=
  [n / 2 ^ 24 % 256, n / 2 ^ 16 % 256, n / 2 ^ 8 % 256, n % 256]

/-- Modelled from the spec: `factory.createUInt16BE` (in `lib/factory.js`, not
among the provided sources) encodes an unsigned 16-bit integer as two
big-endian bytes, per spec section 4.1. -/
def createUInt16BE (n : Nat) : List Byte :=
  [n / 2 ^ 8 % 256, n % 256]

/-- Modelled from the spec: `(new Int64 x).buffer` (node-int64 collaborator)
is the 8-byte big-endian two-complement encoding of the signed 64-bit
integer x, per spec section 4.1 (signed 64-bit backfill start position). -/
def int64BE (x : Int) : List Byte :=
  let u : Nat := (x % (2 ^ 64 : Int)).toNat
  [u / 2 ^ 56 % 256, u / 2 ^ 48 % 256, u / 2 ^ 40 % 256, u / 2 ^ 32 % 256,
   u / 2 ^ 24 % 256, u / 2 ^ 16 % 256, u / 2 ^ 8 % 256, u % 256]

/-- Node `buf.readUInt8 off` (totalised with 0 past the end of the buffer). -/
def readUInt8 (bs : List Byte) (off : Nat) : Nat := bs.getD off 0

/-- Node `buf.readUInt16BE off` (totalised with 0 past the end). -/
def readUInt16BE (bs : List Byte) (off : Nat) : Nat :=
  bs.getD off 0 * 256 + bs.getD (off + 1) 0

/-- Node `buf.readUInt32BE off` (totalised with 0 past the end). -/
def readUInt32BE (bs : List Byte) (off : Nat) : Nat :=
  ((bs.getD off 0 * 256 + bs.getD (off + 1) 0) * 256 + bs.getD (off + 2) 0) * 256
    + bs.getD (off + 3) 0

/-- Node `buf.slice a b`: the bytes of `bs` from index `a` (inclusive) to `b`
(exclusive), clamped to the buffer bounds like the JS method. -/
def bslice (bs : List Byte) (a b : Nat) : List Byte := (bs.take b).drop a

/-- UTF-8 bytes of an ASCII string literal (each char below 128). -/
def strBytes (s : String) : List Byte := s.toList.map Char.toNat

/-- The hardcoded mechanism key `new Buffer("PLAIN")` of `_requestSASLAuth`. -/
def PLAIN : List Byte := strBytes "PLAIN"

/-- Node `buf.toString "ascii"` masks each byte to 7 bits; we keep the result
at byte level: the decoded character codes. -/
def asciiDecode (bs : List Byte) : List Byte := bs.map (fun b => b % 128)

/-- JS `String.prototype.split " "` at byte level: split a character-code list
on the space code 32, keeping empty segments, exactly as JS split does. -/
def splitOnByte (sep : Byte) (bs : List Byte) : List (List Byte) :=
  bs.foldr
    (fun b acc =>
      match acc with
      | [] => if b = sep then [[], []] else [[b]]
      | cur :: rest => if b = sep then [] :: cur :: rest else (b :: cur) :: rest)
    [[]]

/-- The mechanism list `_handleSASLMechs` computes:
`extras.toString("ascii").split(" ")` at byte level. -/
def saslMechs (extras : List Byte) : List (List Byte) :=
  splitOnByte 32 (asciiDecode extras)

/-- The `mode` argument of `setMode`: JS object fields read by the source
(`backfill`, `dump`, `vbuckets`, `takover`, `enableAcks`, `keysOnly`,
`registred` — source spelling kept).  A missing numeric `backfill` is modelled
as 0 and a missing `vbuckets` as `none`; both are falsy exactly like the JS
absent field. -/
structure Mode where
  backfill : Int := 0
  dump : Bool := false
  vbuckets : Option (List Nat) := none
  takover : Bool := false
  enableAcks : Bool := false
  keysOnly : Bool := false
  registred : Bool := false
deriving Repr, DecidableEq

/-- Construction options of `Client`: the stream `name` (bytes of
`this.opts.name`, empty when absent, matching `new Buffer(this.opts.name || 0)`),
the optional streaming mode `opts.mode`, and the credential collaborator
response `sasl_plain.response({username, password})` treated as a black box
byte sequence per spec section 6. -/
structure Opts where
  name : List Byte := []
  mode : Option Mode := none
  saslResponse : List Byte := []
deriving Repr, DecidableEq

/-- Mutable client state: `_connected` and `this.mode` (set by `setMode`). -/
structure ClientState where
  opts : Opts
  connected : Bool := false
  mode : Option Mode := none
deriving Repr, DecidableEq

/-- Extras sub-structure decoded by `_handleMutation` (source field names,
including `engine`, the item-meta length field). -/
structure MutationExtras where
  engine : Nat
  flags : Nat
  ttl : Nat
  reserved : List Byte
  itemFlags : Nat
  itemExpiry : Nat
deriving Repr, DecidableEq

/-- Extras sub-structure decoded by `_handleDelete`, `_handleFlush` and
`_handleOpaque` (the four leading fields only). -/
structure TapExtras where
  engine : Nat
  flags : Nat
  ttl : Nat
  reserved : List Byte
deriving Repr, DecidableEq

/-- The `misc` record of a mutation event: the header restated plus extras. -/
structure MutationMisc where
  header : Header
  extras : MutationExtras
deriving Repr, DecidableEq

/-- The `misc` record of delete / flush / control events. -/
structure TapMisc where
  header : Header
  extras : TapExtras
deriving Repr, DecidableEq

/-- The eight named booleans decoded by `_handleOpaque` (source spelling
`openChekpoint` kept). -/
structure OpaqueFlags where
  enableAcks : Bool
  startBackfill : Bool
  enableCheckpoints : Bool
  openChekpoint : Bool
  startOnlineUpdate : Bool
  stopOnlineUpdate : Bool
  closeStream : Bool
  closeBackfill : Bool
deriving Repr, DecidableEq

/-- Subscriber-facing events emitted by the client. -/
inductive Event where
  | data (header : Header) (extras key body : List Byte)
  | connect
  | error (msg : List Byte)
  | mutation (metas key body : List Byte) (misc : MutationMisc)
  | delete (metas key : List Byte) (misc : TapMisc)
  | flush (misc : TapMisc)
  | opaqueEvent (flags : OpaqueFlags) (misc : TapMisc)
deriving Repr, DecidableEq

/-- Externally visible effects of one client step, in emission order. -/
inductive Action where
  | emit (e : Event)
  | send (header : Header) (parts : List (List Byte))
  | closeConn
deriving Repr, DecidableEq

/-- Source `_requestSASLMechs`: send an empty opcode 0x20 request. -/
def requestSASLMechs (st : ClientState) : ClientState × List Action :=
  (st, [.send { createHeader with magic := 0x80, opcode := 0x20 } []])

/-- Source `_requestSASLAuth`: hardcoded key `"PLAIN"`, body from the
credential collaborator; `keyLength` and `dataLength` set from the byte
lengths.  The offered mechanism list argument is ignored, as in the source. -/
def requestSASLAuth (st : ClientState) (mechs : List (List Byte)) :
    ClientState × List Action :=
  let _ := mechs
  let key := PLAIN
  let body := st.opts.saslResponse
  let header := { createHeader with
    magic := 0x80, opcode := 0x21,
    keyLength := key.length, dataLength := key.length + body.length }
  (st, [.send header [key, body]])

/-- The 32-bit flag word computed by `setMode` from the mode object, mirroring
the chain of bitwise ors in the source. -/
def modeFlagsWord (mode : Mode) : Nat :=
  Nat.lor (if mode.backfill ≠ 0 then 0x01 else 0)
    (Nat.lor (if mode.dump then 0x02 else 0)
      (Nat.lor (if mode.vbuckets.isSome then 0x04 else 0)
        (Nat.lor (if mode.takover then 0x08 else 0)
          (Nat.lor (if mode.enableAcks then 0x10 else 0)
            (Nat.lor (if mode.keysOnly then 0x20 else 0)
              (if mode.registred then 0x80 else 0))))))

/-- The optional body chunks pushed by `setMode`: the Int64 backfill start
position when `mode.backfill` is truthy, then the vbucket count and list when
`mode.vbuckets` is truthy. -/
def modeChunks (mode : Mode) : List (List Byte) :=
  (if mode.backfill ≠ 0 then [int64BE mode.backfill] else []) ++
    (match mode.vbuckets with
     | some vs => createUInt16BE vs.length :: vs.map createUInt16BE
     | none => [])

/-- Source `setMode`: no-op unless `_connected`; otherwise record the mode and
send the opcode 0x40 request with flag-word extras, the stream name as key,
and the concatenated optional chunks as body. -/
def setMode (st : ClientState) (mode : Mode) : ClientState × List Action :=
  if st.connected = false then (st, [])
  else
    let st := { st with mode := some mode }
    let extras := createUInt32BE (modeFlagsWord mode)
    let key := st.opts.name
    let body := (modeChunks mode).flatten
    let header := { createHeader with
      magic := 0x80, opcode := 0x40,
      extrasLength := extras.length, keyLength := key.length,
      dataLength := extras.length + key.length + body.length }
    (st, [.send header [extras, key, body]])

/-- Source `_onError` (the part reachable from packet handling): clear
`_connected` and emit the error event. -/
def onError (st : ClientState) (msg : List Byte) : ClientState × List Action :=
  ({ st with connected := false }, [.emit (.error msg)])

/-- Source `_handleSASLAuth`: empty body means success (set `_connected`, run
`setMode opts.mode` when a mode was supplied, emit `connect`); a non-empty
body is an error message (raise the error, close the connection).  The JS
comparison `status == ""` on the UTF-8 decoded body holds exactly when the
body byte buffer is empty. -/
def handleSASLAuth (st : ClientState) (header : Header)
    (extras key body : List Byte) : ClientState × List Action :=
  let _ := (header, extras, key)
  if body = [] then
    let st1 := { st with connected := true }
    match st.opts.mode with
    | some m =>
        let r := setMode st1 m
        (r.1, r.2 ++ [.emit .connect])
    | none => (st1, [.emit .connect])
  else
    let r := onError st body
    (r.1, r.2 ++ [.closeConn])

/-- Source `_handleSASLMechs`: decode the mechanism list from extras and
request SASL auth. -/
def handleSASLMechs (st : ClientState) (header : Header)
    (extras key body : List Byte) : ClientState × List Action :=
  let _ := (header, key, body)
  requestSASLAuth st (saslMechs extras)

/-- Extras decoding of `_handleMutation` at its fixed offsets. -/
def decodeMutationExtras (extras : List Byte) : MutationExtras :=
  { engine := readUInt16BE extras 0
    flags := readUInt16BE extras 2
    ttl := readUInt8 extras 4
    reserved := bslice extras 5 8
    itemFlags := readUInt32BE extras 8
    itemExpiry := readUInt32BE extras 12 }

/-- Extras decoding of `_handleDelete` / `_handleFlush` / `_handleOpaque`. -/
def decodeTapExtras (extras : List Byte) : TapExtras :=
  { engine := readUInt16BE extras 0
    flags := readUInt16BE extras 2
    ttl := readUInt8 extras 4
    reserved := bslice extras 5 8 }

/-- Source `_handleMutation`: split the meta bytes off the front of the key,
rebuild the visible key from the key tail and the body head, and emit the
mutation event. -/
def handleMutation (st : ClientState) (header : Header)
    (extras key body : List Byte) : ClientState × List Action :=
  let ex := decodeMutationExtras extras
  let metaLength := ex.engine
  let metas := bslice key 0 metaLength
  let key2 := bslice key metaLength key.length ++ bslice body 0 metaLength
  let body2 := body.drop metaLength
  (st, [.emit (.mutation metas key2 body2 { header := header, extras := ex })])

/-- Source `_handleDelete`: same key reassembly as mutation, no value. -/
def handleDelete (st : ClientState) (header : Header)
    (extras key body : List Byte) : ClientState × List Action :=
  let ex := decodeTapExtras extras
  let metaLength := ex.engine
  let metas := bslice key 0 metaLength
  let key2 := bslice key metaLength key.length ++ bslice body 0 metaLength
  (st, [.emit (.delete metas key2 { header := header, extras := ex })])

/-- Source `_handleFlush`. -/
def handleFlush (st : ClientState) (header : Header)
    (extras key body : List Byte) : ClientState × List Action :=
  let _ := (key, body)
  (st, [.emit (.flush { header := header, extras := decodeTapExtras extras })])

/-- Source `_handleOpaque`: decode the 32-bit flag word at body offset 0. -/
def handleOpaque (st : ClientState) (header : Header)
    (extras key body : List Byte) : ClientState × List Action :=
  let _ := key
  let f := readUInt32BE body 0
  let flags : OpaqueFlags :=
    { enableAcks := Nat.land f 1 ≠ 0
      startBackfill := Nat.land f 2 ≠ 0
      enableCheckpoints := Nat.land f 4 ≠ 0
      openChekpoint := Nat.land f 8 ≠ 0
      startOnlineUpdate := Nat.land f 16 ≠ 0
      stopOnlineUpdate := Nat.land f 32 ≠ 0
      closeStream := Nat.land f 64 ≠ 0
      closeBackfill := Nat.land f 128 ≠ 0 }
  (st, [.emit (.opaqueEvent flags { header := header, extras := decodeTapExtras extras })])

/-- Source `_onData`: emit the raw data event first, then dispatch to the
handler registered for the opcode in `Client.handlers`, if any. -/
def onData (st : ClientState) (header : Header)
    (extras key body : List Byte) : ClientState × List Action :=
  let r : ClientState × List Action :=
    if header.opcode = 0x20 then handleSASLMechs st header extras key body
    else if header.opcode = 0x21 then handleSASLAuth st header extras key body
    else if header.opcode = 0x41 then handleMutation st header extras key body
    else if header.opcode = 0x42 then handleDelete st header extras key body
    else if header.opcode = 0x43 then handleFlush st header extras key body
    else if header.opcode = 0x44 then handleOpaque st header extras key body
    else (st, [])
  (r.1, .emit (.data header extras key body) :: r.2)

/-- Spec session-state names (spec sections 3 and 4.3) read off the code
state: `Ready` is authenticated with no streaming mode requested yet,
`Streaming` is authenticated after an honored mode request (the source
records `this.mode` exactly when a `setMode` call is honored), and every
non-authenticated state is collapsed into `NotAuthenticated`. -/
inductive SessionState where
  | NotAuthenticated
  | Ready
  | Streaming
deriving Repr, DecidableEq

/-- The abstraction map from code state to spec session state. -/
def specState (st : ClientState) : SessionState :=
  if st.connected then
    (if st.mode.isSome then .Streaming else .Ready)
  else .NotAuthenticated

/-! ### Helper lemmas -/

/-- Behaviour of `setMode` in a connected state, read off the definition. -/
theorem setMode_connected (st : ClientState) (m : Mode) (h : st.connected = true) :
    setMode st m =
      ({ st with mode := some m },
       [Action.send
         { createHeader with
           magic := 0x80, opcode := 0x40,
           extrasLength := (createUInt32BE (modeFlagsWord m)).length,
           keyLength := st.opts.name.length,
           dataLength := (createUInt32BE (modeFlagsWord m)).length +
             st.opts.name.length + (modeChunks m).flatten.length }
         [createUInt32BE (modeFlagsWord m), st.opts.name, (modeChunks m).flatten]]) := by
  simp [setMode, h]

/-! ### Claims -/

/-- C1: for every mutation packet with extras field itemMetaLength = m, the
decoder emits meta equal to the first m bytes of the key region, a visible
key equal to the key region from offset m onward concatenated with the first
m bytes of the body region, and a value equal to the body region from offset
m onward. -/
theorem C1_mutation_decoding (st : ClientState) (header : Header)
    (extras key body : List Byte) (m : Nat) (hm : readUInt16BE extras 0 = m) :
    (handleMutation st header extras key body).2 =
      [.emit (.mutation (key.take m) (key.drop m ++ body.take m) (body.drop m)
        { header := header, extras := decodeMutationExtras extras })] := by
  subst hm
  simp [handleMutation, bslice, decodeMutationExtras, List.take_length]

/-- C1 witness: the spec scenario with itemMetaLength = 3, key bytes
[1,2,3,f,o,o] and body bytes [b,a,r,b,a,z] decodes to meta [1,2,3],
key "foobar" and value "baz". -/
theorem C1_mutation_decoding_witness :
    readUInt16BE ([0, 3] ++ List.replicate 14 0) 0 = 3 ∧
    (handleMutation { opts := {} } { opcode := 0x41 }
        ([0, 3] ++ List.replicate 14 0)
        [0x01, 0x02, 0x03, 102, 111, 111] [98, 97, 114, 98, 97, 122]).2 =
      [.emit (.mutation [0x01, 0x02, 0x03] (strBytes "foobar") (strBytes "baz")
        { header := { opcode := 0x41 },
          extras := decodeMutationExtras ([0, 3] ++ List.replicate 14 0) })] :=
  ⟨by decide,
   (C1_mutation_decoding { opts := {} } { opcode := 0x41 } _ _ _ 3 (by decide)).trans
     (by decide)⟩

/-- C7: every inbound packet, in every state and for every opcode, first
produces the raw data event carrying the header, extras, key and body
verbatim, before any opcode-specific handling contributes actions. -/
theorem C7_raw_data_event_first (st : ClientState) (header : Header)
    (extras key body : List Byte) :
    ∃ rest, (onData st header extras key body).2 =
      Action.emit (.data header extras key body) :: rest :=
  ⟨_, rfl⟩

/-- C8: a packet whose opcode is none of the handled ones (0x20, 0x21, 0x41,
0x42, 0x43, 0x44) produces no decoded event and leaves the state unchanged:
the only action is the raw data event. -/
theorem C8_unknown_opcode_ignored (st : ClientState) (header : Header)
    (extras key body : List Byte)
    (h : header.opcode ∉ [0x20, 0x21, 0x41, 0x42, 0x43, 0x44]) :
    onData st header extras key body =
      (st, [.emit (.data header extras key body)]) := by
  simp only [List.mem_cons, List.not_mem_nil, or_false, not_or] at h
  obtain ⟨h1, h2, h3, h4, h5, h6⟩ := h
  simp [onData, h1, h2, h3, h4, h5, h6]

/-- C8 witness: opcode 0x99 received while streaming (connected, mode set)
yields only the raw data event and an unchanged state. -/
theorem C8_unknown_opcode_ignored_witness :
    (({ opcode := 0x99 } : Header).opcode ∉ [0x20, 0x21, 0x41, 0x42, 0x43, 0x44]) ∧
    onData { opts := {}, connected := true, mode := some {} } { opcode := 0x99 }
        [] [] [] =
      ({ opts := {}, connected := true, mode := some {} },
       [.emit (.data { opcode := 0x99 } [] [] [])]) :=
  ⟨by decide,
   C8_unknown_opcode_ignored { opts := {}, connected := true, mode := some {} }
     { opcode := 0x99 } [] [] [] (by decide)⟩

/-- C2: every packet with opcode 0x20 makes the session send an opcode 0x21
authenticate request whose key is the supported mechanism name "PLAIN" and
whose body is the credential collaborator response, with keyLength the byte
length of the key and dataLength (totalBodyLength) the sum of the key and
body byte lengths; the extras of the 0x20 response are decoded as an ASCII,
space-separated mechanism list. -/
theorem C2_sasl_mechs_response (st : ClientState) (header : Header)
    (extras key body : List Byte) (h : header.opcode = 0x20) :
    (onData st header extras key body).2 =
      [.emit (.data header extras key body),
       .send
         { createHeader with
           magic := 0x80, opcode := 0x21,
           keyLength := PLAIN.length,
           dataLength := PLAIN.length + st.opts.saslResponse.length }
         [PLAIN, st.opts.saslResponse]] ∧
    saslMechs extras = splitOnByte 32 (asciiDecode extras) := by
  constructor
  · simp [onData, h, handleSASLMechs, requestSASLAuth]
  · rfl

/-- C2 witness: the handshake scenario, a 0x20 response with extras "PLAIN"
in a session whose credential response is the bytes of "bar". -/
theorem C2_sasl_mechs_response_witness :
    (onData { opts := { saslResponse := [98, 97, 114] } } { opcode := 0x20 }
        (strBytes "PLAIN") [] []).2 =
      [.emit (.data { opcode := 0x20 } (strBytes "PLAIN") [] []),
       .send
         { createHeader with
           magic := 0x80, opcode := 0x21,
           keyLength := PLAIN.length, dataLength := PLAIN.length + 3 }
         [PLAIN, [98, 97, 114]]] ∧
    saslMechs (strBytes "PLAIN") = splitOnByte 32 (asciiDecode (strBytes "PLAIN")) :=
  C2_sasl_mechs_response { opts := { saslResponse := [98, 97, 114] } }
    { opcode := 0x20 } (strBytes "PLAIN") [] [] rfl

/-- C3: a packet with opcode 0x21 and a non-empty body makes the session
raise the authentication error carrying the body bytes (presented by the
runtime as the UTF-8 decoded message), clear the connected flag and close
the transport; no connect event is emitted. -/
theorem C3_auth_failure (st : ClientState) (header : Header)
    (extras key body : List Byte) (hop : header.opcode = 0x21)
    (hb : body ≠ []) :
    onData st header extras key body =
      ({ st with connected := false },
       [.emit (.data header extras key body), .emit (.error body), .closeConn]) ∧
    Action.emit .connect ∉ (onData st header extras key body).2 := by
  have h1 : onData st header extras key body =
      ({ st with connected := false },
       [.emit (.data header extras key body), .emit (.error body), .closeConn]) := by
    simp [onData, hop, handleSASLAuth, hb, onError]
  refine ⟨h1, ?_⟩
  rw [h1]
  simp

/-- C3 witness: the spec scenario, a 0x21 response with body "Auth failure". -/
theorem C3_auth_failure_witness :
    onData { opts := {} } { opcode := 0x21 } [] [] (strBytes "Auth failure") =
      ({ opts := {}, connected := false },
       [.emit (.data { opcode := 0x21 } [] [] (strBytes "Auth failure")),
        .emit (.error (strBytes "Auth failure")), .closeConn]) ∧
    Action.emit .connect ∉
      (onData { opts := {} } { opcode := 0x21 } [] []
        (strBytes "Auth failure")).2 :=
  C3_auth_failure { opts := {} } { opcode := 0x21 } [] []
    (strBytes "Auth failure") rfl (by decide)

/-- C4: a packet with opcode 0x21 and an empty body records successful
authentication (connected becomes true); when a streaming mode was supplied
at construction time the session immediately sends the opcode 0x40 mode
request (and then emits connect), otherwise it emits only the connect
notification and awaits an explicit mode request. -/
theorem C4_auth_success (st : ClientState) (header : Header)
    (extras key body : List Byte) (hop : header.opcode = 0x21)
    (hb : body = []) :
    (onData st header extras key body).1.connected = true ∧
    (∀ m, st.opts.mode = some m →
      ∃ hdr parts,
        (onData st header extras key body).2 =
          [.emit (.data header extras key body), .send hdr parts,
           .emit .connect] ∧
        hdr.opcode = 0x40) ∧
    (st.opts.mode = none →
      (onData st header extras key body).2 =
        [.emit (.data header extras key body), .emit .connect]) := by
  subst hb
  rcases hm : st.opts.mode with _ | m
  · refine ⟨?_, ?_, ?_⟩
    · simp [onData, hop, handleSASLAuth, hm]
    · intro m hsome
      exact absurd hsome (by simp)
    · intro _
      simp [onData, hop, handleSASLAuth, hm]
  · have hsm := setMode_connected { st with connected := true } m rfl
    refine ⟨?_, ?_, ?_⟩
    · simp [onData, hop, handleSASLAuth, hm, hsm]
    · intro m2 hsome
      obtain rfl : m = m2 := by injection hsome
      refine ⟨{ createHeader with
                magic := 0x80, opcode := 0x40,
                extrasLength := (createUInt32BE (modeFlagsWord m)).length,
                keyLength := st.opts.name.length,
                dataLength := (createUInt32BE (modeFlagsWord m)).length +
                  st.opts.name.length + (modeChunks m).flatten.length },
              [createUInt32BE (modeFlagsWord m), st.opts.name,
               (modeChunks m).flatten], ?_, rfl⟩
      simp [onData, hop, handleSASLAuth, hm, hsm]
    · intro hnone
      exact absurd hnone (by simp)

/-- C4 witness: a 0x21 success response in a session constructed with a
streaming mode immediately produces the opcode 0x40 request then connect. -/
theorem C4_auth_success_witness :
    (onData { opts := { mode := some {} } } { opcode := 0x21 } [] [] []).1.connected
        = true ∧
    (∀ m, ({ mode := some {} } : Opts).mode = some m →
      ∃ hdr parts,
        (onData { opts := { mode := some {} } } { opcode := 0x21 } [] [] []).2 =
          [.emit (.data { opcode := 0x21 } [] [] []), .send hdr parts,
           .emit .connect] ∧
        hdr.opcode = 0x40) ∧
    (({ mode := some {} } : Opts).mode = none →
      (onData { opts := { mode := some {} } } { opcode := 0x21 } [] [] []).2 =
        [.emit (.data { opcode := 0x21 } [] [] []), .emit .connect]) :=
  C4_auth_success { opts := { mode := some {} } } { opcode := 0x21 } [] [] []
    rfl rfl

/-- C5 counterexample: the claim that a setMode call is honored only in the
spec state Ready fails on the code.  In a state whose spec session state is
Streaming (authenticated, mode already recorded) a further setMode call is
not a silent no-op: it sends a request. -/
theorem C5_counterexample :
    specState { opts := {}, connected := true, mode := some {} } =
        SessionState.Streaming ∧
    SessionState.Streaming ≠ SessionState.Ready ∧
    (setMode { opts := {}, connected := true, mode := some {} }
        { dump := true }).2 ≠ [] := by
  refine ⟨rfl, by decide, by decide⟩

/-- C5 amended: a setMode call is honored exactly when the session is
authenticated (the guard of the source is the connected flag, so the spec
states Ready and Streaming both honor it); a call in a non-connected state
sends nothing and changes nothing. -/
theorem C5_setMode_guard (st : ClientState) (mode : Mode) :
    (st.connected = false → setMode st mode = (st, [])) ∧
    (st.connected = true →
      ∃ hdr parts, (setMode st mode).2 = [Action.send hdr parts] ∧
        hdr.opcode = 0x40 ∧
        (setMode st mode).1 = { st with mode := some mode }) := by
  constructor
  · intro h
    simp [setMode, h]
  · intro h
    rw [setMode_connected st mode h]
    exact ⟨_, _, rfl, rfl, rfl⟩

/-- C5 witness: a disconnected session ignores setMode; a connected session
sends the opcode 0x40 request and records the mode. -/
theorem C5_setMode_guard_witness :
    setMode { opts := {} } {} = ({ opts := {} }, []) ∧
    (∃ hdr parts,
      (setMode { opts := {}, connected := true } {}).2 = [Action.send hdr parts] ∧
      hdr.opcode = 0x40 ∧
      (setMode { opts := {}, connected := true } {}).1 =
        { opts := {}, connected := true, mode := some {} }) :=
  ⟨(C5_setMode_guard { opts := {} } {}).1 rfl,
   (C5_setMode_guard { opts := {}, connected := true } {}).2 rfl⟩

/-- C6: in an honored state, setMode with backfill -1 and keysOnly true sends
a request whose 32-bit extras flag word has exactly bits 0 and 5 set and
whose body is the 8-byte big-endian two-complement encoding of -1. -/
theorem C6_mode_request_encoding (st : ClientState) (h : st.connected = true) :
    (setMode st { backfill := -1, keysOnly := true }).2 =
      [Action.send
        { createHeader with
          magic := 0x80, opcode := 0x40, extrasLength := 4,
          keyLength := st.opts.name.length,
          dataLength := 4 + st.opts.name.length + 8 }
        [createUInt32BE (modeFlagsWord { backfill := -1, keysOnly := true }),
         st.opts.name, int64BE (-1)]] ∧
    (∀ i, (modeFlagsWord { backfill := -1, keysOnly := true }).testBit i = true ↔
      i = 0 ∨ i = 5) ∧
    int64BE (-1) = List.replicate 8 255 := by
  have hw : modeFlagsWord { backfill := -1, keysOnly := true } = 33 := by decide
  have hc : modeChunks { backfill := -1, keysOnly := true } = [int64BE (-1)] := by
    decide
  refine ⟨?_, ?_, by decide⟩
  · rw [setMode_connected st _ h, hc]
    simp [createUInt32BE, int64BE]
  · intro i
    rw [hw]
    rcases Nat.lt_or_ge i 6 with h6 | h6
    · interval_cases i <;> decide
    · rw [Nat.testBit_eq_false_of_lt]
      · constructor
        · intro hfalse
          exact absurd hfalse (by simp)
        · intro hi
          omega
      · calc 33 < 2 ^ 6 := by norm_num
          _ ≤ 2 ^ i := Nat.pow_le_pow_right (by norm_num) h6

/-- C6 witness: the encoding evaluated in a concrete connected session. -/
theorem C6_mode_request_encoding_witness :
    (setMode { opts := {}, connected := true }
        { backfill := -1, keysOnly := true }).2 =
      [Action.send
        { createHeader with
          magic := 0x80, opcode := 0x40, extrasLength := 4,
          keyLength := 0, dataLength := 4 + 0 + 8 }
        [createUInt32BE (modeFlagsWord { backfill := -1, keysOnly := true }),
         [], int64BE (-1)]] ∧
    (∀ i, (modeFlagsWord { backfill := -1, keysOnly := true }).testBit i = true ↔
      i = 0 ∨ i = 5) ∧
    int64BE (-1) = List.replicate 8 255 :=
  C6_mode_request_encoding { opts := {}, connected := true } rfl

/-- C9: a setMode call with backfill 0 (falsy in the source guard) produces a
flag word with bit 0 clear and a body holding only the optional vbucket
segment, never the 8-byte backfill start position; a start position of
exactly 0 is therefore not expressible through setMode. -/
theorem C9_zero_backfill_unrepresentable (st : ClientState) (m : Mode)
    (hc : st.connected = true) (hb : m.backfill = 0) :
    (setMode st m).2 =
      [Action.send
        { createHeader with
          magic := 0x80, opcode := 0x40,
          extrasLength := (createUInt32BE (modeFlagsWord m)).length,
          keyLength := st.opts.name.length,
          dataLength := (createUInt32BE (modeFlagsWord m)).length +
            st.opts.name.length + (modeChunks m).flatten.length }
        [createUInt32BE (modeFlagsWord m), st.opts.name,
         (modeChunks m).flatten]] ∧
    (modeFlagsWord m).testBit 0 = false ∧
    modeChunks m =
      (match m.vbuckets with
       | some vs => createUInt16BE vs.length :: vs.map createUInt16BE
       | none => []) := by
  refine ⟨?_, ?_, ?_⟩
  · rw [setMode_connected st m hc]
  · obtain ⟨bf, dp, vb, tk, ea, ko, rg⟩ := m
    obtain rfl : bf = 0 := hb
    rcases vb with _ | vs <;> cases dp <;> cases tk <;> cases ea <;>
      cases ko <;> cases rg <;> simp only [modeFlagsWord] <;> norm_num <;>
      decide
  · simp [modeChunks, hb]

/-- C9 witness: backfill 0 with a vbucket list [7]: bit 0 clear, body segment
is only the vbucket count and identifiers. -/
theorem C9_zero_backfill_unrepresentable_witness :
    (setMode { opts := {}, connected := true }
        { backfill := 0, vbuckets := some [7] }).2 =
      [Action.send
        { createHeader with
          magic := 0x80, opcode := 0x40,
          extrasLength :=
            (createUInt32BE (modeFlagsWord { backfill := 0, vbuckets := some [7] })).length,
          keyLength := 0,
          dataLength :=
            (createUInt32BE (modeFlagsWord { backfill := 0, vbuckets := some [7] })).length +
              0 + (modeChunks { backfill := 0, vbuckets := some [7] }).flatten.length }
        [createUInt32BE (modeFlagsWord { backfill := 0, vbuckets := some [7] }),
         [], (modeChunks { backfill := 0, vbuckets := some [7] }).flatten]] ∧
    (modeFlagsWord { backfill := 0, vbuckets := some [7] }).testBit 0 = false ∧
    modeChunks { backfill := 0, vbuckets := some [7] } =
      [createUInt16BE 1, createUInt16BE 7] :=
  C9_zero_backfill_unrepresentable { opts := {}, connected := true }
    { backfill := 0, vbuckets := some [7] } rfl rfl

/-- C10: whenever the itemMetaLength is at most the key length and at most
the body length, mutation and delete decoding reconstruct the same visible
key, whose byte length equals the byte length of the original key region. -/
theorem C10_key_length_preserved (st : ClientState) (header : Header)
    (extras key body : List Byte)
    (hk : readUInt16BE extras 0 ≤ key.length)
    (hb : readUInt16BE extras 0 ≤ body.length) :
    ∃ k,
      (handleMutation st header extras key body).2 =
        [.emit (.mutation (key.take (readUInt16BE extras 0)) k
          (body.drop (readUInt16BE extras 0))
          { header := header, extras := decodeMutationExtras extras })] ∧
      (handleDelete st header extras key body).2 =
        [.emit (.delete (key.take (readUInt16BE extras 0)) k
          { header := header, extras := decodeTapExtras extras })] ∧
      k.length = key.length := by
  refine ⟨key.drop (readUInt16BE extras 0) ++ body.take (readUInt16BE extras 0),
    ?_, ?_, ?_⟩
  · simp [handleMutation, bslice, decodeMutationExtras, List.take_length]
  · simp [handleDelete, bslice, decodeTapExtras, List.take_length]
  · simp only [List.length_append, List.length_drop, List.length_take]
    omega

/-- C10 witness: itemMetaLength 2 with a 4-byte key and 3-byte body keeps the
visible key at 4 bytes. -/
theorem C10_key_length_preserved_witness :
    readUInt16BE [0, 2] 0 ≤ ([9, 9, 5, 6] : List Nat).length ∧
    readUInt16BE [0, 2] 0 ≤ ([7, 8, 1] : List Nat).length ∧
    ∃ k,
      (handleMutation { opts := {} } {} [0, 2] [9, 9, 5, 6] [7, 8, 1]).2 =
        [.emit (.mutation (([9, 9, 5, 6] : List Nat).take (readUInt16BE [0, 2] 0)) k
          (([7, 8, 1] : List Nat).drop (readUInt16BE [0, 2] 0))
          { header := {}, extras := decodeMutationExtras [0, 2] })] ∧
      (handleDelete { opts := {} } {} [0, 2] [9, 9, 5, 6] [7, 8, 1]).2 =
        [.emit (.delete (([9, 9, 5, 6] : List Nat).take (readUInt16BE [0, 2] 0)) k
          { header := {}, extras := decodeTapExtras [0, 2] })] ∧
      k.length = ([9, 9, 5, 6] : List Nat).length :=
  ⟨by decide, by decide,
   C10_key_length_preserved { opts := {} } {} [0, 2] [9, 9, 5, 6] [7, 8, 1]
     (by decide) (by decide)⟩

end Couchtap
